import Mathlib

/-!
Verification of `scripts/update_index.py`: a shallow embedding of the
index-builder script, followed by theorems about its behaviour.

Modelling conventions:
* YAML documents are modelled by the inductive `Value`; the external
  `yaml` library's `safe_load` is an oracle parameter
  `parse : String → Except String Value` (`.error` models a raised
  exception, `.ok` the parsed document).
* File-system facts (read results, artifact existence, `os.path.getsize`
  results) are fields of `SourceFile`; `main`'s loop is `build_entries`,
  sorting plus the `PNG_SCALE` default is `build_index`.
* An index entry is an association list `List (String × Value)` so that
  field insertion order is part of the model, exactly as in the Python
  dict literal.
* `date.today().isoformat()` is the parameter `today : String`.
* Python string `.lower()` is modelled on ASCII case only.
-/

namespace UpdateIndex

/-- The YAML-like values the script manipulates (results of `yaml.safe_load`
and the values stored in an index entry). -/
inductive Value where
  | null
  | bool (b : Bool)
  | int (n : Int)
  | str (s : String)
  | list (xs : List Value)
  | dict (kvs : List (String × Value))

/-- Python truthiness (`bool(v)`) on `Value`. -/
def Value.isFalsy : Value → Bool
  | .null => true
  | .bool b => !b
  | .int n => n == 0
  | .str s => s == ""
  | .list xs => xs.isEmpty
  | .dict kvs => kvs.isEmpty

/-- Python regex `\s` over the ASCII whitespace characters. -/
def isPyWs (c : Char) : Bool :=
  c == ' ' || c == '\t' || c == '\n' || c == '\r' || c == '\x0b' || c == '\x0c'

/-- `str.strip()` on a character list. -/
def stripWs (cs : List Char) : List Char :=
  ((cs.dropWhile isPyWs).reverse.dropWhile isPyWs).reverse

/-- Does `cs` start with `pat`? -/
def headMatches : List Char → List Char → Bool
  | [], _ => true
  | _ :: _, [] => false
  | p :: ps, c :: cs => p == c && headMatches ps cs

/-- Index of the first occurrence of `pat` inside `cs` (regex leftmost match). -/
def findSub (pat : List Char) : List Char → Option Nat
  | [] => if headMatches pat [] then some 0 else none
  | c :: cs =>
    if headMatches pat (c :: cs) then some 0
    else (findSub pat (c :: cs).tail).map (· + 1)

/-- `re.search(r'/\*\s*(.*?)\s*\*/', text, re.S)`: the leftmost `/*` that is
followed (at distance ≥ 2) by `*/`; group 1 is the enclosed text with
surrounding whitespace stripped by the greedy `\s*`/lazy `(.*?)` pair. -/
def commentMatch (cs : List Char) : Option (List Char) :=
  match findSub ['/', '*'] cs with
  | none => none
  | some i =>
    let rest := cs.drop (i + 2)
    match findSub ['*', '/'] rest with
    | none => none
    | some j => some (stripWs (rest.take j))

/-- `re.search(r'---\s*(.*?)\s*---', text, re.S)`: the leftmost `---` that is
followed (at distance ≥ 3) by a second `---`; group 1 trimmed as above. -/
def sepMatch (cs : List Char) : Option (List Char) :=
  match findSub ['-', '-', '-'] cs with
  | none => none
  | some i =>
    let rest := cs.drop (i + 3)
    match findSub ['-', '-', '-'] rest with
    | none => none
    | some j => some (stripWs (rest.take j))

/-- Split a character list at newline characters (the lines seen by a
`re.MULTILINE` anchor). -/
def splitLines : List Char → List (List Char)
  | [] => [[]]
  | c :: rest =>
    let r := splitLines rest
    if c == '\n' then [] :: r
    else
      match r with
      | [] => [[c]]
      | l :: ls => (c :: l) :: ls

/-- `re.sub(r'^\s*\*\s?', '', line)` at one line start: a run of whitespace
followed by the decoration `*` and at most one further whitespace character
is removed; a line not starting that way is unchanged.  (The anchor `^` is
applied per line; a whitespace run crossing a newline is not modelled, and
cannot arise in the trimmed group the script feeds in except on interior
all-whitespace lines, which every claim here is insensitive to.) -/
def stripDecoLine (line : List Char) : List Char :=
  match line.dropWhile isPyWs with
  | '*' :: tail =>
    (match tail with
     | c :: tail2 => if isPyWs c then tail2 else tail
     | [] => [])
  | _ => line

/-- `extract_frontmatter` (script lines 22–32): try the block-comment style
`/* ... */` (stripping per-line `*` decorations) and then the YAML style
`--- ... ---`; return the first match, stripped, or `None`. -/
def extract_frontmatter (text : String) : Option String :=
  match commentMatch text.data with
  | some fm =>
    some (String.mk (stripWs (List.intercalate ['\n'] ((splitLines fm).map stripDecoLine))))
  | none =>
    match sepMatch text.data with
    | some fm2 => some (String.mk fm2)
    | none => none

/-- `safe_load_yaml` (script lines 34–39): `yaml.safe_load(yaml_text) or {}`
inside a `try`; an exception is caught, a warning is printed and `{}` is
returned; a falsy parse result (`None`, `''`, `0`, `[]`, `{}`, `False`)
also becomes `{}`. -/
def safe_load_yaml (parse : String → Except String Value) (yaml_text : String) :
    Value × List String :=
  match parse yaml_text with
  | .ok v => (if v.isFalsy then .dict [] else v, [])
  | .error e => (.dict [], ["[warn] YAML parse error: " ++ e])

/-- One enumerated source file together with the file-system facts the script
queries about it: the result of reading it (`open(...).read()` may raise),
the four `os.path.exists` checks, and the four `os.path.getsize` results
(`None` models the caught `OSError` in `file_size_bytes`).  `rel_mmd` is the
path relative to the project root, separators already normalised. -/
structure SourceFile where
  rel_mmd : String
  content : Except String String
  svg_exists : Bool
  png_exists : Bool
  svg_inv_exists : Bool
  png_inv_exists : Bool
  svg_size : Option Int
  png_size : Option Int
  svg_inv_size : Option Int
  png_inv_size : Option Int

/-- `rel_mmd[:-4]`. -/
def stripExt (p : String) : String := String.mk (p.data.take (p.data.length - 4))

def rel_svg (p : String) : String := stripExt p ++ ".svg"

def rel_png (p : String) : String := stripExt p ++ ".png"

def rel_svg_inverted (p : String) : String := stripExt p ++ "-inverted.svg"

def rel_png_inverted (p : String) : String := stripExt p ++ "-inverted.png"

/-- A produced index entry: the Python dict, as an association list so that
key insertion order is part of the model. -/
abbrev Entry := List (String × Value)

/-- `kvs.find` by key: the value stored under `k`, if any. -/
def lookupVal (kvs : List (String × Value)) (k : String) : Option Value :=
  (kvs.find? (fun kv => kv.1 == k)).map (·.2)

/-- `data.get(k)` on a parsed metadata mapping. -/
def dget (data : List (String × Value)) (k : String) : Value :=
  (lookupVal data k).getD .null

/-- `data.get(k, d)`. -/
def dgetD (data : List (String × Value)) (k : String) (d : Value) : Value :=
  (lookupVal data k).getD d

/-- `file_size_bytes` result as an entry value. -/
def sizeVal : Option Int → Value
  | some n => .int n
  | none => .null

/-- The entry construction of `main` (script lines 69–109), for one source
file whose frontmatter parsed to the mapping `data`. -/
def build_entry (data : List (String × Value)) (f : SourceFile) (png_scale : Int)
    (today : String) : Entry :=
  let last_generated :=
    if (dget data "last_generated").isFalsy then Value.str today
    else dget data "last_generated"
  [ ("id", dget data "id"),
    ("title", dget data "title"),
    ("kind", dget data "kind"),
    ("area", dget data "area"),
    ("version", dget data "version"),
    ("tags", dget data "tags"),
    ("owner", dget data "owner"),
    ("ai_generator", dget data "ai_generator"),
    ("prompt_file", dget data "prompt_file"),
    ("prompt_hash", dget data "prompt_hash"),
    ("last_generated", last_generated),
    ("related_code", dgetD data "related_code" (.list [])),
    ("mmd", .str f.rel_mmd),
    ("svg", if f.svg_exists then .str (rel_svg f.rel_mmd) else .null),
    ("png", if f.png_exists then .str (rel_png f.rel_mmd) else .null),
    ("svg_inverted", if f.svg_inv_exists then .str (rel_svg_inverted f.rel_mmd) else .null),
    ("png_inverted", if f.png_inv_exists then .str (rel_png_inverted f.rel_mmd) else .null),
    ("image",
      if f.svg_exists then .str (rel_svg f.rel_mmd)
      else if f.png_exists then .str (rel_png f.rel_mmd) else .null),
    ("image_inverted",
      if f.svg_inv_exists then .str (rel_svg_inverted f.rel_mmd)
      else if f.png_inv_exists then .str (rel_png_inverted f.rel_mmd) else .null),
    ("png_scale", .int png_scale),
    ("svg_size_bytes", if f.svg_exists then sizeVal f.svg_size else .null),
    ("png_size_bytes", if f.png_exists then sizeVal f.png_size else .null),
    ("svg_inverted_size_bytes", if f.svg_inv_exists then sizeVal f.svg_inv_size else .null),
    ("png_inverted_size_bytes", if f.png_inv_exists then sizeVal f.png_inv_size else .null) ]

def warnNoFrontmatter (p : String) : String :=
  "[warn] No frontmatter found in " ++ p ++ "; skipping"

def warnNotDict (p : String) : String :=
  "[warn] Frontmatter in " ++ p ++ " didn't parse to dict; skipping"

def errCannotRead (p e : String) : String :=
  "[error] Cannot read " ++ p ++ ": " ++ e

/-- The body of `main`'s loop (script lines 51–111) for one file: the entry
it contributes (if any) and the diagnostics it prints.  `if not fm_text`
is true both for `None` and for the empty string. -/
def process_file (parse : String → Except String Value) (png_scale : Int)
    (today : String) (f : SourceFile) : Option Entry × List String :=
  match f.content with
  | .error e => (none, [errCannotRead f.rel_mmd e])
  | .ok text =>
    match extract_frontmatter text with
    | none => (none, [warnNoFrontmatter f.rel_mmd])
    | some fm_text =>
      if fm_text == "" then (none, [warnNoFrontmatter f.rel_mmd])
      else
        match safe_load_yaml parse fm_text with
        | (.dict kvs, wlog) => (some (build_entry kvs f png_scale today), wlog)
        | (_, wlog) => (none, wlog ++ [warnNotDict f.rel_mmd])

/-- `main`'s accumulation loop over the (already sorted) enumeration of
source files: the entry list in enumeration order, plus all diagnostics. -/
def build_entries (parse : String → Except String Value) (png_scale : Int)
    (today : String) : List SourceFile → List Entry × List String
  | [] => ([], [])
  | f :: fs =>
    let r := process_file parse png_scale today f
    let rs := build_entries parse png_scale today fs
    (r.1.toList ++ rs.1, r.2 ++ rs.2)

/-- Python `str.lower()` (ASCII case), character by character. -/
def lowerStr (s : String) : String := String.mk (s.data.map Char.toLower)

/-- Python string `<=`: lexicographic comparison by code point. -/
def charListLe : List Char → List Char → Bool
  | [], _ => true
  | _ :: _, [] => false
  | a :: as, b :: bs => if a = b then charListLe as bs else decide (a < b)

def keyLe (a b : String) : Bool := charListLe a.data b.data

/-- The sort key `lambda d: (d.get('id') or '').lower()`; `none` models the
`AttributeError` raised when `.lower()` is applied to a truthy non-string. -/
def pyKey (e : Entry) : Option String :=
  match (if ((lookupVal e "id").getD .null).isFalsy then Value.str ""
         else (lookupVal e "id").getD .null) with
  | .str s => some (lowerStr s)
  | _ => none

/-- The key actually used to compare two entries (under the guard that every
key is defined, `getD` never fires). -/
def keyD (e : Entry) : String := (pyKey e).getD ""

def entryLE (a b : Entry) : Bool := keyLe (keyD a) (keyD b)

/-- `main` end to end: `png_scale` from the environment (default `3`),
the loop, then `entries.sort(key=...)`.  CPython's `list.sort` computes all
keys up front, so the run crashes — modelled by `none` — exactly when some
entry's key raises; otherwise the entries are stably sorted by key. -/
def build_index (parse : String → Except String Value) (env_png_scale : Option Int)
    (today : String) (files : List SourceFile) : Option (List Entry) × List String :=
  let png_scale := env_png_scale.getD 3
  let r := build_entries parse png_scale today files
  if r.1.all (fun e => (pyKey e).isSome) then
    (some (r.1.mergeSort entryLE), r.2)
  else
    (none, r.2)

/-- A source file with no artifacts on disk (used for concrete runs). -/
def noArtifacts (p : String) (c : Except String String) : SourceFile :=
  { rel_mmd := p, content := c, svg_exists := false, png_exists := false,
    svg_inv_exists := false, png_inv_exists := false,
    svg_size := none, png_size := none, svg_inv_size := none, png_inv_size := none }

theorem lookup_image (data : List (String × Value)) (f : SourceFile) (s : Int)
    (t : String) :
    lookupVal (build_entry data f s t) "image"
      = some (if f.svg_exists then .str (rel_svg f.rel_mmd)
              else if f.png_exists then .str (rel_png f.rel_mmd) else .null) := rfl

theorem lookup_image_inverted (data : List (String × Value)) (f : SourceFile) (s : Int)
    (t : String) :
    lookupVal (build_entry data f s t) "image_inverted"
      = some (if f.svg_inv_exists then .str (rel_svg_inverted f.rel_mmd)
              else if f.png_inv_exists then .str (rel_png_inverted f.rel_mmd) else .null) := rfl

theorem lookup_last_generated (data : List (String × Value)) (f : SourceFile) (s : Int)
    (t : String) :
    lookupVal (build_entry data f s t) "last_generated"
      = some (if (dget data "last_generated").isFalsy then Value.str t
              else dget data "last_generated") := rfl

theorem lookup_png_scale (data : List (String × Value)) (f : SourceFile) (s : Int)
    (t : String) :
    lookupVal (build_entry data f s t) "png_scale" = some (.int s) := rfl

theorem lookup_id (data : List (String × Value)) (f : SourceFile) (s : Int)
    (t : String) :
    lookupVal (build_entry data f s t) "id" = some (dget data "id") := rfl

theorem lookup_title (data : List (String × Value)) (f : SourceFile) (s : Int)
    (t : String) :
    lookupVal (build_entry data f s t) "title" = some (dget data "title") := rfl

example : extract_frontmatter "/* id: a */" = some "id: a" := by decide
example : extract_frontmatter "x\n---\nid: a\n---\nrest" = some "id: a" := by decide
example : extract_frontmatter "/* x: 1 */\n---\ny: 2\n---" = some "x: 1" := by decide
example : extract_frontmatter "graph TD" = none := by decide
example : extract_frontmatter "/*   */" = some "" := by decide
example : extract_frontmatter "/*\n * id: a\n * t: b\n */" = some "id: a\nt: b" := by decide

theorem lookup_svg (data : List (String × Value)) (f : SourceFile) (s : Int)
    (t : String) :
    lookupVal (build_entry data f s t) "svg"
      = some (if f.svg_exists then .str (rel_svg f.rel_mmd) else .null) := rfl

/-- C3: for every IndexEntry, `image` equals the svg path when the svg
artifact exists, else the png path when the png exists, else null (and is
thus non-null only when one of the pair exists); the same preference law
holds for `image_inverted` over the inverted pair. -/
theorem C3_image_preference (data : List (String × Value)) (f : SourceFile)
    (s : Int) (t : String) :
    (f.svg_exists = true →
      lookupVal (build_entry data f s t) "image" = some (.str (rel_svg f.rel_mmd)))
    ∧ (f.svg_exists = false → f.png_exists = true →
      lookupVal (build_entry data f s t) "image" = some (.str (rel_png f.rel_mmd)))
    ∧ (f.svg_exists = false → f.png_exists = false →
      lookupVal (build_entry data f s t) "image" = some Value.null)
    ∧ (lookupVal (build_entry data f s t) "image" ≠ some Value.null →
      f.svg_exists = true ∨ f.png_exists = true)
    ∧ (f.svg_inv_exists = true →
      lookupVal (build_entry data f s t) "image_inverted"
        = some (.str (rel_svg_inverted f.rel_mmd)))
    ∧ (f.svg_inv_exists = false → f.png_inv_exists = true →
      lookupVal (build_entry data f s t) "image_inverted"
        = some (.str (rel_png_inverted f.rel_mmd)))
    ∧ (f.svg_inv_exists = false → f.png_inv_exists = false →
      lookupVal (build_entry data f s t) "image_inverted" = some Value.null)
    ∧ (lookupVal (build_entry data f s t) "image_inverted" ≠ some Value.null →
      f.svg_inv_exists = true ∨ f.png_inv_exists = true) := by
  have hi := lookup_image data f s t
  have hii := lookup_image_inverted data f s t
  refine ⟨fun h1 => by rw [hi, h1]; simp,
          fun h1 h2 => by rw [hi, h1, h2]; simp,
          fun h1 h2 => by rw [hi, h1, h2]; simp,
          fun h1 => ?_,
          fun h1 => by rw [hii, h1]; simp,
          fun h1 h2 => by rw [hii, h1, h2]; simp,
          fun h1 h2 => by rw [hii, h1, h2]; simp,
          fun h1 => ?_⟩
  · cases hs : f.svg_exists with
    | true => exact Or.inl rfl
    | false =>
      cases hp : f.png_exists with
      | true => exact Or.inr rfl
      | false => exact absurd (by rw [hi, hs, hp]; simp) h1
  · cases hs : f.svg_inv_exists with
    | true => exact Or.inl rfl
    | false =>
      cases hp : f.png_inv_exists with
      | true => exact Or.inr rfl
      | false => exact absurd (by rw [hii, hs, hp]; simp) h1

def c3File : SourceFile :=
  { rel_mmd := "diagrams/a.mmd", content := .ok "/* id: a */",
    svg_exists := true, png_exists := false, svg_inv_exists := false,
    png_inv_exists := true, svg_size := some 100, png_size := none,
    svg_inv_size := none, png_inv_size := some 5 }

/-- Witness for C3 at a concrete file (svg present, png absent; only the
inverted png present). -/
theorem C3_image_preference_witness :
    c3File.svg_exists = true
    ∧ lookupVal (build_entry [] c3File 3 "2026-10-12") "image"
        = some (.str "diagrams/a.svg")
    ∧ c3File.svg_inv_exists = false ∧ c3File.png_inv_exists = true
    ∧ lookupVal (build_entry [] c3File 3 "2026-10-12") "image_inverted"
        = some (.str "diagrams/a-inverted.png") :=
  ⟨rfl,
   by rw [(C3_image_preference [] c3File 3 "2026-10-12").1 rfl]; rfl,
   rfl, rfl,
   by rw [(C3_image_preference [] c3File 3 "2026-10-12").2.2.2.2.2.1 rfl rfl]; rfl⟩


def c5File : SourceFile :=
  noArtifacts "diagrams/c5.mmd" (.ok "/* last_generated: \"\" */")

/-- The YAML library on the frontmatter of `c5File`: `last_generated: ""`
parses to a mapping holding the empty string. -/
def c5Parse : String → Except String Value :=
  fun s => if s == "last_generated: \"\"" then .ok (.dict [("last_generated", .str "")])
           else .error "unexpected input"

/-- C5 counterexample: a source that specifies `last_generated` as the empty
string does not retain it verbatim — `data.get('last_generated') or
date.today().isoformat()` replaces every falsy value by today's date. -/
theorem C5_counterexample :
    ((process_file c5Parse 3 "2026-10-12" c5File).1.map
        (fun e => lookupVal e "last_generated"))
      = some (some (Value.str "2026-10-12"))
    ∧ Value.str "2026-10-12" ≠ Value.str "" := by
  refine ⟨rfl, fun h => ?_⟩
  injection h with h'
  exact absurd h' (by decide)

/-- C5 amended: a missing `last_generated` — and likewise any falsy specified
value (empty string, null, 0, false) — is replaced by today's date; a truthy
specified value is retained verbatim. -/
theorem C5_default_date_amended (data : List (String × Value)) (f : SourceFile)
    (s : Int) (t : String) :
    (lookupVal data "last_generated" = none →
      lookupVal (build_entry data f s t) "last_generated" = some (.str t))
    ∧ (∀ v, lookupVal data "last_generated" = some v → v.isFalsy = true →
      lookupVal (build_entry data f s t) "last_generated" = some (.str t))
    ∧ (∀ v, lookupVal data "last_generated" = some v → v.isFalsy = false →
      lookupVal (build_entry data f s t) "last_generated" = some v) := by
  have hl := lookup_last_generated data f s t
  refine ⟨fun h => ?_, fun v hv hf => ?_, fun v hv hf => ?_⟩
  · rw [hl]; simp [dget, h, Value.isFalsy]
  · rw [hl]; simp [dget, hv, hf]
  · rw [hl]; simp [dget, hv, hf]

/-- Witness for the amended C5: a truthy date is retained; an absent one is
replaced by today. -/
theorem C5_amended_witness :
    lookupVal [("last_generated", Value.str "2024-01-01")] "last_generated"
        = some (Value.str "2024-01-01")
    ∧ (Value.str "2024-01-01").isFalsy = false
    ∧ lookupVal (build_entry [("last_generated", Value.str "2024-01-01")]
        (noArtifacts "diagrams/w.mmd" (.ok "")) 3 "2026-10-12") "last_generated"
        = some (Value.str "2024-01-01")
    ∧ lookupVal ([] : List (String × Value)) "last_generated" = none
    ∧ lookupVal (build_entry [] (noArtifacts "diagrams/w.mmd" (.ok "")) 3
        "2026-10-12") "last_generated" = some (Value.str "2026-10-12") :=
  ⟨rfl, rfl,
   (C5_default_date_amended _ _ 3 _).2.2 _ rfl rfl,
   rfl,
   (C5_default_date_amended _ _ 3 _).1 rfl⟩

/-- The field names of the entry dict literal, in insertion order. -/
def indexFieldNames : List String :=
  ["id", "title", "kind", "area", "version", "tags", "owner", "ai_generator",
   "prompt_file", "prompt_hash", "last_generated", "related_code", "mmd", "svg",
   "png", "svg_inverted", "png_inverted", "image", "image_inverted", "png_scale",
   "svg_size_bytes", "png_size_bytes", "svg_inverted_size_bytes",
   "png_inverted_size_bytes"]

/-- C9 counterexample: the entry dict has 24 fields, not 23 (the claim's own
enumeration lists 24 names). -/
theorem C9_counterexample :
    ((build_entry [] (noArtifacts "diagrams/x.mmd" (.ok "")) 3
        "2026-10-12").map Prod.fst).length = 24
    ∧ (24 : Nat) ≠ 23 := ⟨rfl, by decide⟩

/-- C9 amended: every produced entry has exactly the 24 fields of
`indexFieldNames`, in that insertion order; a field whose datum is missing is
present with a null value (shown for `id`, `title` and `svg`), never
omitted. -/
theorem C9_fixed_fields (data : List (String × Value)) (f : SourceFile)
    (s : Int) (t : String) :
    (build_entry data f s t).map Prod.fst = indexFieldNames
    ∧ indexFieldNames.length = 24
    ∧ (lookupVal data "id" = none →
        lookupVal (build_entry data f s t) "id" = some Value.null)
    ∧ (lookupVal data "title" = none →
        lookupVal (build_entry data f s t) "title" = some Value.null)
    ∧ (f.svg_exists = false →
        lookupVal (build_entry data f s t) "svg" = some Value.null) := by
  refine ⟨rfl, rfl, fun h => ?_, fun h => ?_, fun h => ?_⟩
  · rw [lookup_id]; simp [dget, h]
  · rw [lookup_title]; simp [dget, h]
  · rw [lookup_svg, h]; simp

/-- Witness for the amended C9 at a concrete entry with no metadata and no
artifacts. -/
theorem C9_fields_witness :
    (build_entry [] (noArtifacts "diagrams/x.mmd" (.ok "")) 3
        "2026-10-12").map Prod.fst = indexFieldNames
    ∧ lookupVal ([] : List (String × Value)) "id" = none
    ∧ lookupVal (build_entry [] (noArtifacts "diagrams/x.mmd" (.ok "")) 3
        "2026-10-12") "id" = some Value.null :=
  ⟨(C9_fixed_fields [] (noArtifacts "diagrams/x.mmd" (.ok "")) 3 "2026-10-12").1,
   rfl,
   (C9_fixed_fields [] (noArtifacts "diagrams/x.mmd" (.ok "")) 3 "2026-10-12").2.2.1 rfl⟩

theorem build_entries_append (parse : String → Except String Value) (s : Int)
    (t : String) (xs ys : List SourceFile) :
    build_entries parse s t (xs ++ ys)
      = ((build_entries parse s t xs).1 ++ (build_entries parse s t ys).1,
         (build_entries parse s t xs).2 ++ (build_entries parse s t ys).2) := by
  induction xs with
  | nil => simp [build_entries]
  | cons f fs ih => simp [build_entries, ih]

theorem process_file_entry_shape (parse : String → Except String Value) (s : Int)
    (t : String) (f : SourceFile) (e : Entry)
    (h : (process_file parse s t f).1 = some e) :
    ∃ kvs, e = build_entry kvs f s t := by
  unfold process_file at h
  split at h
  · simp at h
  · split at h
    · simp at h
    · split at h
      · simp at h
      · split at h
        · simp at h
          exact ⟨_, h.symm⟩
        · simp at h

theorem mem_build_entries (parse : String → Except String Value) (s : Int)
    (t : String) (files : List SourceFile) (e : Entry)
    (h : e ∈ (build_entries parse s t files).1) :
    ∃ f ∈ files, ∃ kvs, e = build_entry kvs f s t := by
  induction files with
  | nil => simp [build_entries] at h
  | cons f fs ih =>
    simp only [build_entries, List.mem_append] at h
    cases h with
    | inl h1 =>
      have hps : (process_file parse s t f).1 = some e := by
        cases hp : (process_file parse s t f).1 with
        | none => rw [hp] at h1; simp at h1
        | some e2 =>
          rw [hp] at h1
          simp only [Option.toList_some, List.mem_singleton] at h1
          rw [h1]
      obtain ⟨kvs, hk⟩ := process_file_entry_shape parse s t f e hps
      exact ⟨f, List.mem_cons_self f fs, kvs, hk⟩
    | inr h2 =>
      obtain ⟨f2, hf2, kvs, hk⟩ := ih h2
      exact ⟨f2, List.mem_cons_of_mem f hf2, kvs, hk⟩

/-- C8: the scale factor is the environment value, defaulting to 3 when the
variable is absent, and every entry of a completed run records exactly that
value in its `png_scale` field. -/
theorem C8_png_scale_recorded (parse : String → Except String Value)
    (env : Option Int) (t : String) (files : List SourceFile)
    (out : List Entry) (logs : List String)
    (hrun : build_index parse env t files = (some out, logs))
    (e : Entry) (he : e ∈ out) :
    lookupVal e "png_scale" = some (.int (env.getD 3)) := by
  simp only [build_index] at hrun
  split at hrun
  · have h2 : (build_entries parse (env.getD 3) t files).1.mergeSort entryLE = out := by
      simpa using congrArg Prod.fst hrun
    rw [← h2] at he
    have he' := List.mem_mergeSort.mp he
    obtain ⟨f, hf, kvs, hk⟩ := mem_build_entries parse (env.getD 3) t files e he'
    rw [hk]
    exact lookup_png_scale kvs f (env.getD 3) t
  · simp at hrun

def c8File : SourceFile := noArtifacts "diagrams/a.mmd" (.ok "/* id: a */")

def c8Parse : String → Except String Value :=
  fun s => if s == "id: a" then .ok (.dict [("id", .str "a")])
           else .error "unexpected input"

def c8Entry : Entry := build_entry [("id", Value.str "a")] c8File 3 "2026-10-12"

theorem c8_run :
    build_index c8Parse none "2026-10-12" [c8File] = (some [c8Entry], []) := by
  show (some ([c8Entry].mergeSort entryLE), ([] : List String)) = (some [c8Entry], [])
  rw [List.mergeSort_singleton]

/-- Witness for C8: a concrete run with the environment variable absent; the
produced entry records the default 3. -/
theorem C8_witness :
    build_index c8Parse none "2026-10-12" [c8File] = (some [c8Entry], [])
    ∧ lookupVal c8Entry "png_scale" = some (.int ((none : Option Int).getD 3)) :=
  ⟨c8_run,
   C8_png_scale_recorded c8Parse none "2026-10-12" [c8File] [c8Entry] [] c8_run
     c8Entry (List.mem_singleton.mpr rfl)⟩

/-- C6: a per-file failure — the file is unreadable, or no recognized
metadata block is found (including a block stripping to empty) — yields no
entry but a diagnostic, and the run still produces exactly the other files'
entries; no per-file error terminates the run. -/
theorem C6_per_file_errors_recovered (parse : String → Except String Value)
    (s : Int) (t : String) (f : SourceFile) (xs ys : List SourceFile)
    (hfail : (∃ msg, f.content = .error msg)
      ∨ (∃ text, f.content = .ok text
          ∧ (extract_frontmatter text = none ∨ extract_frontmatter text = some ""))) :
    (process_file parse s t f).1 = none
    ∧ (process_file parse s t f).2 ≠ []
    ∧ (build_entries parse s t (xs ++ f :: ys)).1
        = (build_entries parse s t xs).1 ++ (build_entries parse s t ys).1 := by
  have hnone : (process_file parse s t f).1 = none
      ∧ (process_file parse s t f).2 ≠ [] := by
    rcases hfail with ⟨msg, hm⟩ | ⟨text, ht, hx | hx⟩
    · simp [process_file, hm]
    · simp [process_file, ht, hx]
    · simp [process_file, ht, hx]
  refine ⟨hnone.1, hnone.2, ?_⟩
  have hmid : (build_entries parse s t (f :: ys)).1 = (build_entries parse s t ys).1 := by
    simp only [build_entries]
    rw [hnone.1]
    simp
  rw [build_entries_append parse s t xs (f :: ys)]
  dsimp only
  rw [hmid]

def c6Good1 : SourceFile := noArtifacts "diagrams/a.mmd" (.ok "/* id: a */")

def c6Bad : SourceFile := noArtifacts "diagrams/b.mmd" (.error "Permission denied")

def c6Good2 : SourceFile := noArtifacts "diagrams/c.mmd" (.ok "/* id: c */")

def c6Parse : String → Except String Value :=
  fun s => if s == "id: a" then .ok (.dict [("id", .str "a")])
           else if s == "id: c" then .ok (.dict [("id", .str "c")])
           else .error "unexpected input"

/-- Witness for C6: an unreadable file between two valid files contributes no
entry, and the run still emits both other entries. -/
theorem C6_witness :
    c6Bad.content = Except.error "Permission denied"
    ∧ (process_file c6Parse 3 "2026-10-12" c6Bad).1 = none
    ∧ (build_entries c6Parse 3 "2026-10-12" ([c6Good1] ++ c6Bad :: [c6Good2])).1
        = (build_entries c6Parse 3 "2026-10-12" [c6Good1]).1
          ++ (build_entries c6Parse 3 "2026-10-12" [c6Good2]).1 :=
  ⟨rfl,
   (C6_per_file_errors_recovered c6Parse 3 "2026-10-12" c6Bad [c6Good1] [c6Good2]
      (Or.inl ⟨"Permission denied", rfl⟩)).1,
   (C6_per_file_errors_recovered c6Parse 3 "2026-10-12" c6Bad [c6Good1] [c6Good2]
      (Or.inl ⟨"Permission denied", rfl⟩)).2.2⟩

def c1Parse : String → Except String Value :=
  fun s => if s == "id: ok" then .ok (.dict [("id", .str "ok")])
           else .error "mapping values are not allowed here"

def c1Bad : SourceFile := noArtifacts "diagrams/bad.mmd" (.ok "/* id: [unclosed */")

def c1Good : SourceFile := noArtifacts "diagrams/good.mmd" (.ok "/* id: ok */")

/-- C1 counterexample: a file whose non-empty metadata block raises a YAML
parse error still produces an IndexEntry, because `safe_load_yaml` converts
the exception into `{}`, which passes the dict check.  The claim predicts
one entry here (for `good.mmd` only); the code produces two. -/
theorem C1_counterexample :
    (build_entries c1Parse 3 "2026-10-12" [c1Bad, c1Good]).1
      = [build_entry [] c1Bad 3 "2026-10-12",
         build_entry [("id", Value.str "ok")] c1Good 3 "2026-10-12"]
    ∧ (build_entries c1Parse 3 "2026-10-12" [c1Bad, c1Good]).1.length ≠ 1 :=
  ⟨rfl, by decide⟩

/-- C1 amended: a file whose non-empty metadata block fails to parse logs the
YAML warning and still produces an IndexEntry built from the empty mapping
(every metadata field defaulted); subsequent files are still processed. -/
theorem C1_malformed_yaml_amended (parse : String → Except String Value)
    (s : Int) (t : String) (f : SourceFile) (text fm msg : String)
    (hread : f.content = .ok text) (hfm : extract_frontmatter text = some fm)
    (hne : fm ≠ "") (hparse : parse fm = .error msg) (xs ys : List SourceFile) :
    (process_file parse s t f).1 = some (build_entry [] f s t)
    ∧ (process_file parse s t f).2 = ["[warn] YAML parse error: " ++ msg]
    ∧ (build_entries parse s t (xs ++ f :: ys)).1
        = (build_entries parse s t xs).1
          ++ build_entry [] f s t :: (build_entries parse s t ys).1 := by
  have hp : process_file parse s t f
      = (some (build_entry [] f s t), ["[warn] YAML parse error: " ++ msg]) := by
    simp [process_file, hread, hfm, hne, safe_load_yaml, hparse]
  refine ⟨by rw [hp], by rw [hp], ?_⟩
  have hmid : (build_entries parse s t (f :: ys)).1
      = build_entry [] f s t :: (build_entries parse s t ys).1 := by
    simp only [build_entries]
    rw [hp]
    simp
  rw [build_entries_append parse s t xs (f :: ys)]
  dsimp only
  rw [hmid]

/-- Witness for the amended C1. -/
theorem C1_amended_witness :
    extract_frontmatter "/* id: [unclosed */" = some "id: [unclosed"
    ∧ c1Parse "id: [unclosed" = .error "mapping values are not allowed here"
    ∧ (process_file c1Parse 3 "2026-10-12" c1Bad).1
        = some (build_entry [] c1Bad 3 "2026-10-12")
    ∧ (build_entries c1Parse 3 "2026-10-12" ([] ++ c1Bad :: [c1Good])).1
        = (build_entries c1Parse 3 "2026-10-12" []).1
          ++ build_entry [] c1Bad 3 "2026-10-12"
            :: (build_entries c1Parse 3 "2026-10-12" [c1Good]).1 :=
  ⟨by decide, rfl,
   (C1_malformed_yaml_amended c1Parse 3 "2026-10-12" c1Bad "/* id: [unclosed */"
      "id: [unclosed" "mapping values are not allowed here" rfl (by decide)
      (by decide) rfl [] [c1Good]).1,
   (C1_malformed_yaml_amended c1Parse 3 "2026-10-12" c1Bad "/* id: [unclosed */"
      "id: [unclosed" "mapping values are not allowed here" rfl (by decide)
      (by decide) rfl [] [c1Good]).2.2⟩

/-- C10: a file whose extracted metadata block strips to the empty string is
treated exactly like a file in which no block was recognized: the same
no-frontmatter warning, no entry. -/
theorem C10_empty_block_like_missing (parse : String → Except String Value)
    (s : Int) (t : String) (f : SourceFile) (text : String)
    (hread : f.content = .ok text) :
    (extract_frontmatter text = some "" →
      process_file parse s t f = (none, [warnNoFrontmatter f.rel_mmd]))
    ∧ (extract_frontmatter text = none →
      process_file parse s t f = (none, [warnNoFrontmatter f.rel_mmd])) := by
  constructor
  · intro hx; simp [process_file, hread, hx]
  · intro hx; simp [process_file, hread, hx]

def c10File : SourceFile := noArtifacts "diagrams/empty.mmd" (.ok "/*   \n  */\ngraph TD")

/-- Witness for C10: delimiters present enclosing only whitespace. -/
theorem C10_witness :
    c10File.content = Except.ok "/*   \n  */\ngraph TD"
    ∧ extract_frontmatter "/*   \n  */\ngraph TD" = some ""
    ∧ process_file (fun _ => Except.error "unused") 3 "2026-10-12" c10File
        = (none, [warnNoFrontmatter "diagrams/empty.mmd"]) :=
  ⟨rfl, by decide,
   (C10_empty_block_like_missing (fun _ => Except.error "unused") 3 "2026-10-12"
      c10File "/*   \n  */\ngraph TD" rfl).1 (by decide)⟩

/-- C4: `extract_frontmatter` tries the comment-delimited convention first:
when it matches, its decoration-stripped result is returned regardless of
the separator convention; otherwise the separator convention's result is
returned when it matches; absent when neither matches. -/
theorem C4_convention_priority (text : String) :
    (∀ fm, commentMatch text.data = some fm →
      extract_frontmatter text
        = some (String.mk (stripWs (List.intercalate ['\n']
            ((splitLines fm).map stripDecoLine)))))
    ∧ (∀ fm2, commentMatch text.data = none → sepMatch text.data = some fm2 →
      extract_frontmatter text = some (String.mk fm2))
    ∧ (commentMatch text.data = none → sepMatch text.data = none →
      extract_frontmatter text = none) := by
  refine ⟨fun fm h => ?_, fun fm2 h h2 => ?_, fun h h2 => ?_⟩
  · simp [extract_frontmatter, h]
  · simp [extract_frontmatter, h, h2]
  · simp [extract_frontmatter, h, h2]

/-- Witness for C4: a text in which both conventions match; the comment one
wins. -/
theorem C4_witness :
    commentMatch ("/* a: 1 */\n---\nb: 2\n---".data) = some ("a: 1".data)
    ∧ sepMatch ("/* a: 1 */\n---\nb: 2\n---".data) = some ("b: 2".data)
    ∧ extract_frontmatter "/* a: 1 */\n---\nb: 2\n---" = some "a: 1" :=
  ⟨by decide, by decide,
   by
     rw [(C4_convention_priority "/* a: 1 */\n---\nb: 2\n---").1 ("a: 1".data)
       (by decide)]
     rfl⟩

theorem charListLe_refl : ∀ cs, charListLe cs cs = true
  | [] => rfl
  | c :: cs => by simp [charListLe, charListLe_refl cs]

theorem charListLe_total : ∀ as bs, charListLe as bs || charListLe bs as
  | [], _ => by simp [charListLe]
  | _ :: _, [] => by simp [charListLe]
  | a :: as, b :: bs => by
    by_cases h : a = b
    · subst h; simpa [charListLe] using charListLe_total as bs
    · rcases lt_trichotomy a b with hlt | heq | hgt
      · simp [charListLe, h, hlt]
      · exact absurd heq h
      · simp [charListLe, h, Ne.symm h, hgt, not_lt_of_gt hgt]

theorem charListLe_trans :
    ∀ as bs cs, charListLe as bs → charListLe bs cs → charListLe as cs
  | [], _, _ => by simp [charListLe]
  | a :: as, b :: bs, [] => by simp [charListLe]
  | a :: as, [], cs => by simp [charListLe]
  | a :: as, b :: bs, c :: cs => by
    by_cases hab : a = b <;> by_cases hbc : b = c
    · subst hab; subst hbc
      simp only [charListLe, if_pos rfl]
      exact charListLe_trans as bs cs
    · subst hab
      simp [charListLe, hbc]
    · subst hbc
      simp only [charListLe, if_neg hab, if_pos rfl]
      exact fun h _ => h
    · intro h1 h2
      simp only [charListLe, if_neg hab] at h1
      simp only [charListLe, if_neg hbc] at h2
      have hac : a < c := lt_trans (of_decide_eq_true h1) (of_decide_eq_true h2)
      simp [charListLe, ne_of_lt hac, hac]

theorem entryLE_trans (a b c : Entry) : entryLE a b → entryLE b c → entryLE a c :=
  charListLe_trans (keyD a).data (keyD b).data (keyD c).data

theorem entryLE_total (a b : Entry) : entryLE a b || entryLE b a :=
  charListLe_total (keyD a).data (keyD b).data

/-- Stability of the sort, phrased on key classes: the entries carrying any
fixed key appear in the sorted output in their original relative order. -/
theorem mergeSort_filter_key (l : List Entry) (k : String) :
    (l.mergeSort entryLE).filter (fun e => keyD e == k)
      = l.filter (fun e => keyD e == k) := by
  have hkeq : ∀ a ∈ l.filter (fun e => keyD e == k),
      ∀ b ∈ l.filter (fun e => keyD e == k), entryLE a b = true := by
    intro a ha b hb
    have h1 : keyD a = k := by simpa using List.of_mem_filter ha
    have h2 : keyD b = k := by simpa using List.of_mem_filter hb
    show keyLe (keyD a) (keyD b) = true
    rw [h1, h2]
    exact charListLe_refl k.data
  have hpw : (l.filter (fun e => keyD e == k)).Pairwise (entryLE · ·) :=
    List.pairwise_of_forall_mem_list hkeq
  have hsub : List.Sublist (l.filter (fun e => keyD e == k)) (l.mergeSort entryLE) :=
    List.sublist_mergeSort entryLE_trans entryLE_total hpw (List.filter_sublist l)
  have hself : (l.filter (fun e => keyD e == k)).filter (fun e => keyD e == k)
      = l.filter (fun e => keyD e == k) :=
    List.filter_eq_self.mpr (fun a ha => by simpa using List.of_mem_filter ha)
  have hsub2 : List.Sublist (l.filter (fun e => keyD e == k))
      ((l.mergeSort entryLE).filter (fun e => keyD e == k)) := by
    have := hsub.filter (fun e => keyD e == k)
    rwa [hself] at this
  have hperm : List.Perm ((l.mergeSort entryLE).filter (fun e => keyD e == k))
      (l.filter (fun e => keyD e == k)) :=
    (List.mergeSort_perm l entryLE).filter (fun e => keyD e == k)
  exact (hsub2.eq_of_length hperm.length_eq.symm).symm

/-- C2: when every produced entry's sort key is computable (its `id` is falsy
or a string — otherwise CPython raises on `.lower()`), the run completes and
its output is the entry list sorted ascending by the case-lowered `id` key;
an entry with a missing `id` gets the empty-string key, which is minimal;
and entries sharing a key keep their relative enumeration order (the sort is
stable). -/
theorem C2_sorted_by_id (parse : String → Except String Value) (env : Option Int)
    (t : String) (files : List SourceFile)
    (hkeys : (build_entries parse (env.getD 3) t files).1.all
        (fun e => (pyKey e).isSome) = true) :
    build_index parse env t files
        = (some ((build_entries parse (env.getD 3) t files).1.mergeSort entryLE),
           (build_entries parse (env.getD 3) t files).2)
    ∧ ((build_entries parse (env.getD 3) t files).1.mergeSort entryLE).Pairwise
        (fun a b => entryLE a b = true)
    ∧ (∀ e : Entry, lookupVal e "id" = some Value.null → keyD e = "")
    ∧ (∀ s : String, keyLe "" s = true)
    ∧ (∀ k : String,
        ((build_entries parse (env.getD 3) t files).1.mergeSort entryLE).filter
            (fun e => keyD e == k)
          = (build_entries parse (env.getD 3) t files).1.filter
              (fun e => keyD e == k)) := by
  refine ⟨?_, ?_, ?_, fun s => rfl, fun k => mergeSort_filter_key _ k⟩
  · simp only [build_index]
    rw [hkeys]
    simp
  · exact List.sorted_mergeSort entryLE_trans entryLE_total _
  · intro e h
    simp [keyD, pyKey, h, Value.isFalsy, lowerStr]

def c2FileA : SourceFile :=
  { rel_mmd := "diagrams/a.mmd", content := .ok "/* id: zeta */",
    svg_exists := true, png_exists := false, svg_inv_exists := false,
    png_inv_exists := false, svg_size := some 10, png_size := none,
    svg_inv_size := none, png_inv_size := none }

def c2FileB : SourceFile :=
  { rel_mmd := "diagrams/b.mmd", content := .ok "/* id: Alpha */",
    svg_exists := false, png_exists := true, svg_inv_exists := false,
    png_inv_exists := false, svg_size := none, png_size := some 20,
    svg_inv_size := none, png_inv_size := none }

def c2Parse : String → Except String Value :=
  fun s => if s == "id: zeta" then .ok (.dict [("id", .str "zeta")])
           else if s == "id: Alpha" then .ok (.dict [("id", .str "Alpha")])
           else .error "unexpected input"

/-- Witness for C2: a concrete two-file run (ids `zeta` then `Alpha`) whose
keys are all computable; the theorem yields completion, sortedness and
stability of its output. -/
theorem C2_witness :
    (build_entries c2Parse ((none : Option Int).getD 3) "2026-10-12"
        [c2FileA, c2FileB]).1.all (fun e => (pyKey e).isSome) = true
    ∧ ((build_entries c2Parse ((none : Option Int).getD 3) "2026-10-12"
        [c2FileA, c2FileB]).1.mergeSort entryLE).Pairwise
          (fun a b => entryLE a b = true) :=
  ⟨by decide,
   (C2_sorted_by_id c2Parse none "2026-10-12" [c2FileA, c2FileB] (by decide)).2.1⟩

/-- Does the processed metadata of `f` pin `last_generated` to a truthy
value (so that the clock never enters its entry)?  Files that yield no
entry pin it vacuously. -/
def datePinned (parse : String → Except String Value) (f : SourceFile) : Bool :=
  match f.content with
  | .error _ => true
  | .ok text =>
    match extract_frontmatter text with
    | none => true
    | some fm =>
      if fm == "" then true
      else
        match (safe_load_yaml parse fm).1 with
        | .dict kvs => !(dget kvs "last_generated").isFalsy
        | _ => true

theorem build_entry_today_irrelevant (data : List (String × Value)) (f : SourceFile)
    (s : Int) (t1 t2 : String)
    (h : (dget data "last_generated").isFalsy = false) :
    build_entry data f s t1 = build_entry data f s t2 := by
  simp [build_entry, h]

theorem process_file_today_irrelevant (parse : String → Except String Value)
    (s : Int) (f : SourceFile) (h : datePinned parse f = true) (t1 t2 : String) :
    process_file parse s t1 f = process_file parse s t2 f := by
  cases hc : f.content with
  | error e => simp [process_file, hc]
  | ok text =>
    cases hx : extract_frontmatter text with
    | none => simp [process_file, hc, hx]
    | some fm =>
      by_cases hz : fm = ""
      · subst hz; simp [process_file, hc, hx]
      · have hz' : (fm == "") = false := by simpa using hz
        rcases hsl : safe_load_yaml parse fm with ⟨v, wlog⟩
        cases v with
        | dict kvs =>
          have hf : (dget kvs "last_generated").isFalsy = false := by
            have h2 := h
            unfold datePinned at h2
            simp [hc, hx, hz', hsl] at h2
            exact h2
          simp [process_file, hc, hx, hz', hsl,
            build_entry_today_irrelevant kvs f s t1 t2 hf]
        | null => simp [process_file, hc, hx, hz', hsl]
        | bool b => simp [process_file, hc, hx, hz', hsl]
        | int n => simp [process_file, hc, hx, hz', hsl]
        | str s2 => simp [process_file, hc, hx, hz', hsl]
        | list xs => simp [process_file, hc, hx, hz', hsl]

theorem build_entries_today_irrelevant (parse : String → Except String Value)
    (s : Int) (t1 t2 : String) :
    ∀ files : List SourceFile, (∀ f ∈ files, datePinned parse f = true) →
      build_entries parse s t1 files = build_entries parse s t2 files
  | [], _ => rfl
  | f :: fs, hp => by
    have h1 := process_file_today_irrelevant parse s f
      (hp f (List.mem_cons_self f fs)) t1 t2
    have h2 := build_entries_today_irrelevant parse s t1 t2 fs
      (fun g hg => hp g (List.mem_cons_of_mem f hg))
    simp [build_entries, h1, h2]

/-- C7: the builder is a pure function of (input files, environment scale,
clock): rerunning on identical inputs yields identical output, and when every
processed file pins `last_generated` to a truthy value, the output is
identical across different clock values as well — the clock enters only
through the `last_generated` default. -/
theorem C7_deterministic (parse : String → Except String Value) (env : Option Int)
    (t : String) (files : List SourceFile) :
    build_index parse env t files = build_index parse env t files
    ∧ ((∀ f ∈ files, datePinned parse f = true) →
        ∀ t1 t2, build_index parse env t1 files = build_index parse env t2 files) := by
  refine ⟨rfl, fun hp t1 t2 => ?_⟩
  have hbe := build_entries_today_irrelevant parse (env.getD 3) t1 t2 files hp
  simp [build_index, hbe]

def c7File : SourceFile :=
  noArtifacts "diagrams/a.mmd" (.ok "/* last_generated: \"2024-01-01\" */")

def c7Parse : String → Except String Value :=
  fun s => if s == "last_generated: \"2024-01-01\""
           then .ok (.dict [("last_generated", .str "2024-01-01")])
           else .error "unexpected input"

/-- Witness for C7: a file with a pinned date; two runs under different
clock values agree exactly. -/
theorem C7_witness :
    (∀ f ∈ [c7File], datePinned c7Parse f = true)
    ∧ build_index c7Parse none "2026-10-12" [c7File]
        = build_index c7Parse none "2027-01-01" [c7File] :=
  ⟨by decide,
   (C7_deterministic c7Parse none "2026-10-12" [c7File]).2 (by decide)
     "2026-10-12" "2027-01-01"⟩

end UpdateIndex
